import Mathlib

/-!
Shallow embedding of the helper module `src/helpers/33Together.js` of the
olympus-frontend repository.

Modelling conventions:
* JavaScript numbers are modelled as exact rationals (`ℚ`); the source performs
  plain real arithmetic on them and the specification states the same formulas.
* `Math.round x` is `⌊x + 1/2⌋`: the nearest integer with ties rounded toward
  positive infinity, exactly JavaScript's rounding rule on real values.
* The 18-decimal fixed-point mantissas coming from the contract (ethers
  `BigNumber` values) are modelled as `ℕ`; `BigNumber.div` is truncating
  division, which on naturals is `Nat.div`, and `BigNumber.gt 0` is `0 < ·`.
* `ethers.utils.formatEther` converts an 18-decimal integer amount to its exact
  decimal string; multiplying that string by a number coerces it back to the
  number it denotes, so the composition is modelled as division by `10 ^ 18`
  in `ℚ`.
-/

/-- JavaScript `Math.round`: nearest integer, ties toward positive infinity. -/
def jsRound (x : ℚ) : ℤ := ⌊x + 1 / 2⌋

/-- A JavaScript value as passed for `usersPoolBalance` in `calculateOdds`:
`undefined`, a number (modelled as an exact rational), or a string. -/
inductive JSVal where
  | undef
  | num (q : ℚ)
  | str (s : String)
deriving DecidableEq

/-- The result of `calculateOdds`: either the literal no-chance marker string
`"ngmi"` or a number. -/
inductive OddsResult where
  | ngmi
  | odds (q : ℚ)
deriving DecidableEq

/-- JavaScript `parseFloat` lifted to `JSVal`. The parameter `pf` models the
host `parseFloat` on strings, with `none` standing for `NaN`.
`parseFloat undefined` parses the string `"undefined"` and yields `NaN`;
`parseFloat` of a finite number round-trips exactly through the number's
decimal string. -/
def jsParseFloat (pf : String → Option ℚ) : JSVal → Option ℚ
  | JSVal.undef => none
  | JSVal.num q => some q
  | JSVal.str s => pf s

/-- JavaScript `ToNumber` coercion applied to a `JSVal` when it appears inside
arithmetic. The parameter `tn` models the coercion of strings. A number
coerces to itself. `undefined` coerces to `NaN`; that case never reaches the
arithmetic in `calculateOdds` (the `undefined` guard fires first), so it is
given the placeholder value `0` here. -/
def jsToNumber (tn : String → ℚ) : JSVal → ℚ
  | JSVal.undef => 0
  | JSVal.num q => q
  | JSVal.str s => tn s

/-- Embedding of `calculateOdds` from `33Together.js`:
`usersPoolBalance === undefined || usersPoolBalance === 0 ||
parseFloat(usersPoolBalance) === 0` selects the `"ngmi"` marker, otherwise the
result is `1 / (1 - ((totalPoolDeposits - usersPoolBalance) /
totalPoolDeposits) ^ winners)`. The winners count is an integer exponent. -/
def calculateOdds (pf : String → Option ℚ) (tn : String → ℚ)
    (usersPoolBalance : JSVal) (totalPoolDeposits : ℚ) (winners : ℤ) :
    OddsResult :=
  if usersPoolBalance = JSVal.undef ∨ usersPoolBalance = JSVal.num 0 ∨
      jsParseFloat pf usersPoolBalance = some 0 then
    OddsResult.ngmi
  else
    OddsResult.odds
      (1 / (1 - ((totalPoolDeposits - jsToNumber tn usersPoolBalance) /
        totalPoolDeposits) ^ winners))

/-- Embedding of `fractionToPercentage` from `33Together.js`: `Math.round(fraction * 100)`. -/
def fractionToPercentage (fraction : ℚ) : ℤ :=
  jsRound (fraction * 100)

/-- Embedding of `secondsToDaysForInput` from `33Together.js`:
`Math.round((seconds / 60 / 60 / 24) * 10000) / 10000`. -/
def secondsToDaysForInput (seconds : ℚ) : ℚ :=
  (jsRound (seconds / 60 / 60 / 24 * 10000) : ℚ) / 10000

/-- Embedding of `getCreditMaturationDaysAndLimitPercentage` from `33Together.js`. The two
mantissas are contract-supplied nonnegative 18-decimal fixed-point integers. -/
def getCreditMaturationDaysAndLimitPercentage
    (ticketCreditRateMantissa ticketCreditLimitMantissa : ℕ) : ℚ × ℤ :=
  let creditLimitMantissa : ℚ := (ticketCreditLimitMantissa : ℚ) / 10 ^ 18
  let creditLimitPercentage := fractionToPercentage creditLimitMantissa
  let creditMaturationInSeconds : ℕ :=
    if 0 < ticketCreditRateMantissa then
      ticketCreditLimitMantissa / ticketCreditRateMantissa
    else 0
  let creditMaturationInDays :=
    secondsToDaysForInput (creditMaturationInSeconds : ℚ)
  (creditMaturationInDays, creditLimitPercentage)

/-- Embedding of `poolTogetherUILinks` from `33Together.js`: both branches currently return
the same hardcoded rinkeby URL pair (the mainnet URLs are a TODO in the
source). -/
def poolTogetherUILinks (chainID : ℤ) : String × String :=
  if chainID = 4 then
    ("https://community.pooltogether.com/pools/rinkeby/0x60bc094cb0c966e60ed3be0549e92f3bc572e9f8/home",
     "https://community.pooltogether.com/pools/rinkeby/0x60bc094cb0c966e60ed3be0549e92f3bc572e9f8/manage#stats")
  else
    ("https://community.pooltogether.com/pools/rinkeby/0x60bc094cb0c966e60ed3be0549e92f3bc572e9f8/home",
     "https://community.pooltogether.com/pools/rinkeby/0x60bc094cb0c966e60ed3be0549e92f3bc572e9f8/manage#stats")

/-! ## Event listener helpers

`33Together.js` imports `addresses` from `../constants` and
`addEthersEventListener` / `removeEthersEventListener` from
`./ethersEventListener`; neither module is part of the sources here.

Modelled from the spec: the address-configuration table is "a network-indexed
address-configuration table keyed by numeric network id, exposing at least
`POOL_TOGETHER.PRIZE_STRATEGY_ADDRESS` and `POOL_TOGETHER.PRIZE_POOL_ADDRESS`",
reimplemented per the spec's design note "as an injected immutable mapping from
network id to contract-address struct". A network id absent from the table is
`none`; in JavaScript `addresses[networkID]` is then `undefined` and the
subsequent `.POOL_TOGETHER` property access throws a lookup `TypeError`, which
the helpers do not catch — modelled as an `Except.error` produced before any
effect.

The listener facility's `addEthersEventListener` / `removeEthersEventListener`
calls, the caller-supplied `eventHandler()` invocation, `console.log`, and
`setTimeout(() => window.location.reload(), 15000)` are modelled as an emitted
trace of effects in program order. The `provider` argument is threaded through
both facility calls unchanged and carries no behaviour of its own, so it is
omitted from the effect trace. -/

/-- The `POOL_TOGETHER` field of one network's entry in the address table. -/
structure PoolTogetherAddresses where
  PRIZE_STRATEGY_ADDRESS : String
  PRIZE_POOL_ADDRESS : String
deriving DecidableEq

/-- One network's entry in the address-configuration table. -/
structure NetworkAddresses where
  POOL_TOGETHER : PoolTogetherAddresses
deriving DecidableEq

/-- The JavaScript error raised when the network id is absent from the address
table: reading `.POOL_TOGETHER` off `undefined` throws a lookup `TypeError`. -/
inductive JsError where
  | lookupUndefined (networkID : ℤ)
deriving DecidableEq

/-- An effect performed by an installed handler when it fires. -/
inductive HandlerEffect where
  | removeListener (topic addr : String)
  | invokeCallback
  | scheduleReload (delayMs : ℕ)
deriving DecidableEq

/-- An effect performed by a listener helper at registration time. The
`addListener` effect records the installed handler as the trace it will emit
when fired, indexed by whether the caller-supplied callback throws. -/
inductive Effect where
  | consoleLog (msg : String)
  | addListener (topic addr : String) (handler : Bool → List HandlerEffect)
  | removeListener (topic addr : String)

/-- The `handlerFunc` closure common to the three listener helpers:
`removeEthersEventListener(provider, topicString, contractAddress);
eventHandler(); setTimeout(() => window.location.reload(), 15000);` run in
order. JavaScript statements execute sequentially and an exception thrown by
`eventHandler()` aborts the rest of the body, so when the callback throws the
trace stops right after the callback invocation and the reload is never
scheduled. -/
def handlerFunc (topicString contractAddress : String) :
    Bool → List HandlerEffect :=
  fun callbackThrows =>
    HandlerEffect.removeListener topicString contractAddress ::
      HandlerEffect.invokeCallback ::
        (if callbackThrows then [] else [HandlerEffect.scheduleReload 15000])

/-- The local `topicString` of `listenAndHandleRNGCompleteEvent`. -/
def rngCompleteTopic : String := "RandomNumberCompleted(uint32,uint256)"

/-- The local `topicString` of `listenAndHandleDepositEvent`. -/
def depositTopic : String := "Deposited(address,address,address,uint256,address)"

/-- The local `topicString` of `listenAndHandleRNGStartEvent`. -/
def rngStartTopic : String := "RandomNumberRequested(uint32,address)"

/-- Embedding of `listenAndHandleRNGCompleteEvent` from `33Together.js`: resolve
`addresses[networkID].POOL_TOGETHER.PRIZE_STRATEGY_ADDRESS`, then register
`handlerFunc` for the RNG-complete topic on that address. -/
def listenAndHandleRNGCompleteEvent
    (addresses : ℤ → Option NetworkAddresses) (networkID : ℤ) :
    Except JsError (List Effect) :=
  match addresses networkID with
  | none => Except.error (JsError.lookupUndefined networkID)
  | some entry =>
    let contractAddress := entry.POOL_TOGETHER.PRIZE_STRATEGY_ADDRESS
    Except.ok [Effect.addListener rngCompleteTopic contractAddress
      (handlerFunc rngCompleteTopic contractAddress)]

/-- Embedding of `listenAndHandleDepositEvent` from `33Together.js`: resolve
`addresses[networkID].POOL_TOGETHER.PRIZE_POOL_ADDRESS`, then register
`handlerFunc` for the deposit topic on that address. -/
def listenAndHandleDepositEvent
    (addresses : ℤ → Option NetworkAddresses) (networkID : ℤ) :
    Except JsError (List Effect) :=
  match addresses networkID with
  | none => Except.error (JsError.lookupUndefined networkID)
  | some entry =>
    let contractAddress := entry.POOL_TOGETHER.PRIZE_POOL_ADDRESS
    Except.ok [Effect.addListener depositTopic contractAddress
      (handlerFunc depositTopic contractAddress)]

/-- Embedding of `listenAndHandleRNGStartEvent` from `33Together.js`: resolve
`addresses[networkID].POOL_TOGETHER.PRIZE_STRATEGY_ADDRESS`; when
`secondsLeft <= 0`, log `"start listener"` and register `handlerFunc` for the
RNG-start topic, otherwise log `"end listener"` and remove any listener for
that topic/address pair. -/
def listenAndHandleRNGStartEvent
    (addresses : ℤ → Option NetworkAddresses) (networkID : ℤ)
    (secondsLeft : ℚ) : Except JsError (List Effect) :=
  match addresses networkID with
  | none => Except.error (JsError.lookupUndefined networkID)
  | some entry =>
    let contractAddress := entry.POOL_TOGETHER.PRIZE_STRATEGY_ADDRESS
    if secondsLeft ≤ 0 then
      Except.ok [Effect.consoleLog "start listener",
        Effect.addListener rngStartTopic contractAddress
          (handlerFunc rngStartTopic contractAddress)]
    else
      Except.ok [Effect.consoleLog "end listener",
        Effect.removeListener rngStartTopic contractAddress]

/-- Whether an effect is an `addEthersEventListener` call (for any pair). -/
def isAddListener : Effect → Bool
  | Effect.addListener _ _ _ => true
  | _ => false

/-- Whether an effect is a `removeEthersEventListener` call (for any pair). -/
def isRemoveListener : Effect → Bool
  | Effect.removeListener _ _ => true
  | _ => false

/-- Whether an effect is an `addEthersEventListener` call for the given
topic/address pair. -/
def isAddListenerFor (t c : String) : Effect → Bool
  | Effect.addListener topic addr _ => topic == t && addr == c
  | _ => false

/-- Whether an effect is a `removeEthersEventListener` call for the given
topic/address pair. -/
def isRemoveListenerFor (t c : String) : Effect → Bool
  | Effect.removeListener topic addr => topic == t && addr == c
  | _ => false

/-- The effect trace of a helper call, empty when the call threw. -/
def effectsOf : Except JsError (List Effect) → List Effect
  | Except.ok es => es
  | Except.error _ => []

example : secondsToDaysForInput 86400 = 1 := by
  norm_num [secondsToDaysForInput, jsRound]
example : fractionToPercentage (256 / 1000) = 26 := by
  norm_num [fractionToPercentage, jsRound]
example : getCreditMaturationDaysAndLimitPercentage 0 (10 ^ 18) = (0, 100) := by
  norm_num [getCreditMaturationDaysAndLimitPercentage, fractionToPercentage,
    secondsToDaysForInput, jsRound]

/-! ## Helper lemmas -/

/-- Unfolding lemma: when the marker guard fails, `calculateOdds` takes the
formula branch. -/
theorem calculateOdds_eq_odds (pf : String → Option ℚ) (tn : String → ℚ)
    (usersPoolBalance : JSVal) (totalPoolDeposits : ℚ) (winners : ℤ)
    (h : ¬(usersPoolBalance = JSVal.undef ∨ usersPoolBalance = JSVal.num 0 ∨
      jsParseFloat pf usersPoolBalance = some 0)) :
    calculateOdds pf tn usersPoolBalance totalPoolDeposits winners =
      OddsResult.odds (1 / (1 -
        ((totalPoolDeposits - jsToNumber tn usersPoolBalance) /
          totalPoolDeposits) ^ winners)) := by
  simp [calculateOdds, h]

/-- Unfolding lemma: when the marker guard holds, `calculateOdds` returns the
marker. -/
theorem calculateOdds_eq_ngmi (pf : String → Option ℚ) (tn : String → ℚ)
    (usersPoolBalance : JSVal) (totalPoolDeposits : ℚ) (winners : ℤ)
    (h : usersPoolBalance = JSVal.undef ∨ usersPoolBalance = JSVal.num 0 ∨
      jsParseFloat pf usersPoolBalance = some 0) :
    calculateOdds pf tn usersPoolBalance totalPoolDeposits winners =
      OddsResult.ngmi := by
  simp [calculateOdds, h]

/-! ## Claims -/

/-- C1: for `ticketCreditRateMantissa > 0`,
`getCreditMaturationDaysAndLimitPercentage rate limit` returns the pair
`[round(((limit div rate) / 86400) * 10000) / 10000, round((limit / 10^18) * 100)]`,
where `div` is truncating integer division on the mantissas and `round` is
nearest-integer rounding; in particular a maturation of `86400` underlying
seconds (limit = 86400 * rate) yields exactly `1` day. -/
theorem getCreditMaturation_pos_rate
    (ticketCreditRateMantissa ticketCreditLimitMantissa : ℕ)
    (h : 0 < ticketCreditRateMantissa) :
    getCreditMaturationDaysAndLimitPercentage ticketCreditRateMantissa
        ticketCreditLimitMantissa =
      ((jsRound
          (((ticketCreditLimitMantissa / ticketCreditRateMantissa : ℕ) : ℚ) /
            86400 * 10000) : ℚ) / 10000,
        jsRound ((ticketCreditLimitMantissa : ℚ) / 10 ^ 18 * 100)) ∧
    (getCreditMaturationDaysAndLimitPercentage ticketCreditRateMantissa
        (86400 * ticketCreditRateMantissa)).1 = 1 := by
  constructor
  · simp only [getCreditMaturationDaysAndLimitPercentage, fractionToPercentage,
      secondsToDaysForInput, if_pos h, Prod.mk.injEq]
    refine ⟨?_, trivial⟩
    rw [div_div, div_div]
    norm_num
  · simp only [getCreditMaturationDaysAndLimitPercentage, if_pos h,
      Nat.mul_div_cancel _ h]
    norm_num [secondsToDaysForInput, jsRound]

/-- Witness for C1 at rate 2, limit 10^18: the credit maturation is
`10^18 / 2 = 5 * 10^17` seconds, i.e. `round(5787037037037.037) = 5787037037037`
ten-thousandths of a day, and the limit percentage is 100. -/
theorem getCreditMaturation_pos_rate_witness :
    0 < 2 ∧
    (getCreditMaturationDaysAndLimitPercentage 2 (10 ^ 18) =
      ((jsRound (((10 ^ 18 / 2 : ℕ) : ℚ) / 86400 * 10000) : ℚ) / 10000,
        jsRound ((10 ^ 18 : ℚ) / 10 ^ 18 * 100)) ∧
    (getCreditMaturationDaysAndLimitPercentage 2 (86400 * 2)).1 = 1) :=
  ⟨by decide, getCreditMaturation_pos_rate 2 (10 ^ 18) (by decide)⟩

/-- C4: with `ticketCreditRateMantissa = 0` the first component (maturation in
days) is `0` regardless of the limit, and the second component is still the
limit percentage computed by `fractionToPercentage` from the limit. -/
theorem getCreditMaturation_zero_rate (ticketCreditLimitMantissa : ℕ) :
    (getCreditMaturationDaysAndLimitPercentage 0 ticketCreditLimitMantissa).1
        = 0 ∧
    (getCreditMaturationDaysAndLimitPercentage 0 ticketCreditLimitMantissa).2
        = fractionToPercentage ((ticketCreditLimitMantissa : ℚ) / 10 ^ 18) := by
  constructor
  · norm_num [getCreditMaturationDaysAndLimitPercentage, secondsToDaysForInput,
      jsRound]
  · rfl

/-- C8: `poolTogetherUILinks` returns the same fixed two-element tuple of URL
strings for every chainID; the output is independent of the input. -/
theorem poolTogetherUILinks_constant (chainID : ℤ) :
    poolTogetherUILinks chainID =
      ("https://community.pooltogether.com/pools/rinkeby/0x60bc094cb0c966e60ed3be0549e92f3bc572e9f8/home",
       "https://community.pooltogether.com/pools/rinkeby/0x60bc094cb0c966e60ed3be0549e92f3bc572e9f8/manage#stats") := by
  unfold poolTogetherUILinks
  split <;> rfl

/-- C2: `calculateOdds` returns the no-chance marker exactly when
`usersPoolBalance` is `undefined`, the number `0`, or a value that `parseFloat`
parses to `0`; for every other `usersPoolBalance` it returns the number
`1 / (1 - ((totalPoolDeposits - usersPoolBalance) / totalPoolDeposits) ^ winners)`
(with the balance coerced to a number by the host's `ToNumber`). -/
theorem calculateOdds_marker_iff (pf : String → Option ℚ) (tn : String → ℚ)
    (usersPoolBalance : JSVal) (totalPoolDeposits : ℚ) (winners : ℤ) :
    (calculateOdds pf tn usersPoolBalance totalPoolDeposits winners =
        OddsResult.ngmi ↔
      usersPoolBalance = JSVal.undef ∨ usersPoolBalance = JSVal.num 0 ∨
        jsParseFloat pf usersPoolBalance = some 0) ∧
    (¬(usersPoolBalance = JSVal.undef ∨ usersPoolBalance = JSVal.num 0 ∨
        jsParseFloat pf usersPoolBalance = some 0) →
      calculateOdds pf tn usersPoolBalance totalPoolDeposits winners =
        OddsResult.odds (1 / (1 -
          ((totalPoolDeposits - jsToNumber tn usersPoolBalance) /
            totalPoolDeposits) ^ winners))) := by
  by_cases hc : usersPoolBalance = JSVal.undef ∨
      usersPoolBalance = JSVal.num 0 ∨
      jsParseFloat pf usersPoolBalance = some 0
  · simp [calculateOdds, hc]
  · simp [calculateOdds, hc]

/-- Witness for C2: the string `"x"` does not parse to `0` under a parse
function returning NaN, so the formula branch is taken. -/
theorem calculateOdds_marker_iff_witness :
    calculateOdds (fun _ => none) (fun _ => 3) (JSVal.str "x") 4 2 =
      OddsResult.odds (1 / (1 - ((4 - 3) / 4) ^ (2 : ℤ))) :=
  (calculateOdds_marker_iff (fun _ => none) (fun _ => 3) (JSVal.str "x") 4 2).2
    (by simp [jsParseFloat])

/-- C9: when the user holds the entire pool (`usersPoolBalance =
totalPoolDeposits > 0`) and `winners ≥ 1`, `calculateOdds` returns exactly the
number `1`: the ratio `(total - balance) / total` is `0` and the formula
evaluates to `1 / (1 - 0)`. -/
theorem calculateOdds_full_pool (pf : String → Option ℚ) (tn : String → ℚ)
    (totalPoolDeposits : ℚ) (winners : ℤ) (ht : 0 < totalPoolDeposits)
    (hw : 1 ≤ winners) :
    calculateOdds pf tn (JSVal.num totalPoolDeposits) totalPoolDeposits
        winners = OddsResult.odds 1 := by
  have ht0 : totalPoolDeposits ≠ 0 := ne_of_gt ht
  have hw0 : winners ≠ 0 := by omega
  rw [calculateOdds_eq_odds pf tn (JSVal.num totalPoolDeposits)
      totalPoolDeposits winners (by simp [jsParseFloat, ht0])]
  simp [jsToNumber, sub_self, zero_div, zero_zpow winners hw0]

/-- Witness for C9 at total = 2, winners = 1. -/
theorem calculateOdds_full_pool_witness :
    (0 : ℚ) < 2 ∧ (1 : ℤ) ≤ 1 ∧
    calculateOdds (fun _ => none) (fun _ => 0) (JSVal.num 2) 2 1 =
      OddsResult.odds 1 :=
  ⟨by norm_num, le_refl 1,
    calculateOdds_full_pool (fun _ => none) (fun _ => 0) 2 1 (by norm_num)
      (le_refl 1)⟩

/-- C3 counterexample: the claim quantifies over every integer winners count.
At `usersPoolBalance = 1`, `totalPoolDeposits = 2`, `winners = -1` the code
computes `1 / (1 - ((2 - 1) / 2) ^ (-1)) = 1 / (1 - 2) = -1`, which is less
than `1`, refuting the claim as stated. -/
theorem calculateOdds_negative_winners_counterexample :
    calculateOdds (fun _ => none) (fun _ => 0) (JSVal.num 1) 2 (-1) =
      OddsResult.odds (-1) ∧ ¬(1 ≤ (-1 : ℚ)) := by
  constructor
  · rw [calculateOdds_eq_odds (fun _ => none) (fun _ => 0) (JSVal.num 1) 2
      (-1) (by simp [jsParseFloat])]
    norm_num [jsToNumber]
  · norm_num

/-- C3 (amended): for every `totalPoolDeposits > 0`, every `usersPoolBalance`
strictly between `0` and `totalPoolDeposits`, and every winners count `≥ 1`,
`calculateOdds` returns a number that is at least `1`. (For `winners = 0` the
JavaScript result is `Infinity` through division by zero, and for negative
winners the result drops below `1`, so the claim's unconstrained winners
quantifier fails; `winners ≥ 1` is the constraint the counterexample forces.) -/
theorem calculateOdds_ge_one (pf : String → Option ℚ) (tn : String → ℚ)
    (usersPoolBalance totalPoolDeposits : ℚ) (winners : ℤ)
    (hb : 0 < usersPoolBalance) (hbt : usersPoolBalance < totalPoolDeposits)
    (hw : 1 ≤ winners) :
    calculateOdds pf tn (JSVal.num usersPoolBalance) totalPoolDeposits
        winners =
      OddsResult.odds (1 / (1 -
        ((totalPoolDeposits - usersPoolBalance) / totalPoolDeposits) ^
          winners)) ∧
    1 ≤ 1 / (1 -
      ((totalPoolDeposits - usersPoolBalance) / totalPoolDeposits) ^
        winners) := by
  have ht : 0 < totalPoolDeposits := hb.trans hbt
  have hb0 : usersPoolBalance ≠ 0 := ne_of_gt hb
  constructor
  · rw [calculateOdds_eq_odds pf tn (JSVal.num usersPoolBalance)
      totalPoolDeposits winners (by simp [jsParseFloat, hb0])]
    rfl
  · set r : ℚ := (totalPoolDeposits - usersPoolBalance) / totalPoolDeposits
      with hr
    have hr0 : 0 < r := div_pos (by linarith) ht
    have hr1 : r < 1 := (div_lt_one ht).mpr (by linarith)
    lift winners to ℕ using (by omega : (0 : ℤ) ≤ winners) with n hn
    have hn0 : n ≠ 0 := by omega
    rw [zpow_natCast]
    have hpow1 : r ^ n < 1 := pow_lt_one₀ hr0.le hr1 hn0
    have hpow0 : 0 < r ^ n := pow_pos hr0 n
    have hd : 0 < 1 - r ^ n := by linarith
    rw [le_div_iff₀ hd]
    linarith

/-- Witness for the amended C3 at balance 1, total 2, winners 1: the odds are
`1 / (1 - 1/2) = 2 ≥ 1`. -/
theorem calculateOdds_ge_one_witness :
    (0 : ℚ) < 1 ∧ (1 : ℚ) < 2 ∧ (1 : ℤ) ≤ 1 ∧
    (calculateOdds (fun _ => none) (fun _ => 0) (JSVal.num 1) 2 1 =
      OddsResult.odds (1 / (1 - ((2 - 1) / 2) ^ (1 : ℤ))) ∧
    1 ≤ 1 / (1 - ((2 - 1 : ℚ) / 2) ^ (1 : ℤ))) :=
  ⟨by norm_num, by norm_num, le_refl 1,
    calculateOdds_ge_one (fun _ => none) (fun _ => 0) 1 2 1 (by norm_num)
      (by norm_num) (le_refl 1)⟩

/-- C5: when the network id resolves, `listenAndHandleRNGStartEvent` with
`secondsLeft ≤ 0` performs exactly one `addEthersEventListener` call for the
topic `"RandomNumberRequested(uint32,address)"` on the prize-strategy address
and no `removeEthersEventListener` call; with `secondsLeft > 0` it performs
exactly one `removeEthersEventListener` call for that topic/address pair and
no `addEthersEventListener` call. -/
theorem rngStart_registration (addresses : ℤ → Option NetworkAddresses)
    (networkID : ℤ) (secondsLeft : ℚ) (entry : NetworkAddresses)
    (h : addresses networkID = some entry) :
    (secondsLeft ≤ 0 →
      (effectsOf (listenAndHandleRNGStartEvent addresses networkID
          secondsLeft)).countP
        (isAddListenerFor rngStartTopic
          entry.POOL_TOGETHER.PRIZE_STRATEGY_ADDRESS) = 1 ∧
      (effectsOf (listenAndHandleRNGStartEvent addresses networkID
          secondsLeft)).countP isRemoveListener = 0) ∧
    (0 < secondsLeft →
      (effectsOf (listenAndHandleRNGStartEvent addresses networkID
          secondsLeft)).countP
        (isRemoveListenerFor rngStartTopic
          entry.POOL_TOGETHER.PRIZE_STRATEGY_ADDRESS) = 1 ∧
      (effectsOf (listenAndHandleRNGStartEvent addresses networkID
          secondsLeft)).countP isAddListener = 0) := by
  constructor
  · intro hs
    rw [listenAndHandleRNGStartEvent, h]
    simp only [if_pos hs, effectsOf]
    simp [List.countP_cons, isAddListenerFor, isRemoveListener]
  · intro hs
    rw [listenAndHandleRNGStartEvent, h]
    simp only [if_neg (not_le.mpr hs), effectsOf]
    simp [List.countP_cons, isRemoveListenerFor, isAddListener]

/-- Witness for C5 on a one-entry table, at `secondsLeft = 0` (registration)
and `secondsLeft = 5` (removal). -/
theorem rngStart_registration_witness :
    ((effectsOf (listenAndHandleRNGStartEvent
        (fun _ => some (NetworkAddresses.mk
          (PoolTogetherAddresses.mk "0xstrategy" "0xpool"))) 1 0)).countP
      (isAddListenerFor rngStartTopic "0xstrategy") = 1 ∧
    (effectsOf (listenAndHandleRNGStartEvent
        (fun _ => some (NetworkAddresses.mk
          (PoolTogetherAddresses.mk "0xstrategy" "0xpool"))) 1 0)).countP
      isRemoveListener = 0) ∧
    ((effectsOf (listenAndHandleRNGStartEvent
        (fun _ => some (NetworkAddresses.mk
          (PoolTogetherAddresses.mk "0xstrategy" "0xpool"))) 1 5)).countP
      (isRemoveListenerFor rngStartTopic "0xstrategy") = 1 ∧
    (effectsOf (listenAndHandleRNGStartEvent
        (fun _ => some (NetworkAddresses.mk
          (PoolTogetherAddresses.mk "0xstrategy" "0xpool"))) 1 5)).countP
      isAddListener = 0) :=
  ⟨(rngStart_registration
      (fun _ => some (NetworkAddresses.mk
        (PoolTogetherAddresses.mk "0xstrategy" "0xpool"))) 1 0
      (NetworkAddresses.mk (PoolTogetherAddresses.mk "0xstrategy" "0xpool"))
      rfl).1 (le_refl 0),
    (rngStart_registration
      (fun _ => some (NetworkAddresses.mk
        (PoolTogetherAddresses.mk "0xstrategy" "0xpool"))) 1 5
      (NetworkAddresses.mk (PoolTogetherAddresses.mk "0xstrategy" "0xpool"))
      rfl).2 (by norm_num)⟩

/-- C6: each of the three listener helpers installs `handlerFunc` for its own
topic/address pair, and when that handler fires (callback not throwing) it
performs, in order: exactly one self-deregistering remove call for its own
pair, exactly one invocation of the caller-supplied callback, and the
scheduling of exactly one page reload with a fixed 15000 ms delay — and
nothing else. -/
theorem handler_fire_sequence (addresses : ℤ → Option NetworkAddresses)
    (networkID : ℤ) (secondsLeft : ℚ) (entry : NetworkAddresses)
    (h : addresses networkID = some entry) (hs : secondsLeft ≤ 0) :
    listenAndHandleRNGCompleteEvent addresses networkID =
      Except.ok [Effect.addListener rngCompleteTopic
        entry.POOL_TOGETHER.PRIZE_STRATEGY_ADDRESS
        (handlerFunc rngCompleteTopic
          entry.POOL_TOGETHER.PRIZE_STRATEGY_ADDRESS)] ∧
    listenAndHandleDepositEvent addresses networkID =
      Except.ok [Effect.addListener depositTopic
        entry.POOL_TOGETHER.PRIZE_POOL_ADDRESS
        (handlerFunc depositTopic entry.POOL_TOGETHER.PRIZE_POOL_ADDRESS)] ∧
    listenAndHandleRNGStartEvent addresses networkID secondsLeft =
      Except.ok [Effect.consoleLog "start listener",
        Effect.addListener rngStartTopic
          entry.POOL_TOGETHER.PRIZE_STRATEGY_ADDRESS
          (handlerFunc rngStartTopic
            entry.POOL_TOGETHER.PRIZE_STRATEGY_ADDRESS)] ∧
    handlerFunc rngCompleteTopic entry.POOL_TOGETHER.PRIZE_STRATEGY_ADDRESS
        false =
      [HandlerEffect.removeListener rngCompleteTopic
        entry.POOL_TOGETHER.PRIZE_STRATEGY_ADDRESS,
       HandlerEffect.invokeCallback, HandlerEffect.scheduleReload 15000] ∧
    handlerFunc depositTopic entry.POOL_TOGETHER.PRIZE_POOL_ADDRESS false =
      [HandlerEffect.removeListener depositTopic
        entry.POOL_TOGETHER.PRIZE_POOL_ADDRESS,
       HandlerEffect.invokeCallback, HandlerEffect.scheduleReload 15000] ∧
    handlerFunc rngStartTopic entry.POOL_TOGETHER.PRIZE_STRATEGY_ADDRESS
        false =
      [HandlerEffect.removeListener rngStartTopic
        entry.POOL_TOGETHER.PRIZE_STRATEGY_ADDRESS,
       HandlerEffect.invokeCallback, HandlerEffect.scheduleReload 15000] := by
  refine ⟨?_, ?_, ?_, rfl, rfl, rfl⟩
  · rw [listenAndHandleRNGCompleteEvent, h]
  · rw [listenAndHandleDepositEvent, h]
  · rw [listenAndHandleRNGStartEvent, h]
    simp only [if_pos hs]

/-- Witness for C6 on a one-entry table at `secondsLeft = 0`. -/
theorem handler_fire_sequence_witness :
    listenAndHandleRNGCompleteEvent
        (fun _ => some (NetworkAddresses.mk
          (PoolTogetherAddresses.mk "0xstrategy" "0xpool"))) 1 =
      Except.ok [Effect.addListener rngCompleteTopic "0xstrategy"
        (handlerFunc rngCompleteTopic "0xstrategy")] ∧
    listenAndHandleDepositEvent
        (fun _ => some (NetworkAddresses.mk
          (PoolTogetherAddresses.mk "0xstrategy" "0xpool"))) 1 =
      Except.ok [Effect.addListener depositTopic "0xpool"
        (handlerFunc depositTopic "0xpool")] ∧
    listenAndHandleRNGStartEvent
        (fun _ => some (NetworkAddresses.mk
          (PoolTogetherAddresses.mk "0xstrategy" "0xpool"))) 1 0 =
      Except.ok [Effect.consoleLog "start listener",
        Effect.addListener rngStartTopic "0xstrategy"
          (handlerFunc rngStartTopic "0xstrategy")] ∧
    handlerFunc rngCompleteTopic "0xstrategy" false =
      [HandlerEffect.removeListener rngCompleteTopic "0xstrategy",
       HandlerEffect.invokeCallback, HandlerEffect.scheduleReload 15000] ∧
    handlerFunc depositTopic "0xpool" false =
      [HandlerEffect.removeListener depositTopic "0xpool",
       HandlerEffect.invokeCallback, HandlerEffect.scheduleReload 15000] ∧
    handlerFunc rngStartTopic "0xstrategy" false =
      [HandlerEffect.removeListener rngStartTopic "0xstrategy",
       HandlerEffect.invokeCallback, HandlerEffect.scheduleReload 15000] :=
  handler_fire_sequence
    (fun _ => some (NetworkAddresses.mk
      (PoolTogetherAddresses.mk "0xstrategy" "0xpool"))) 1 0
    (NetworkAddresses.mk (PoolTogetherAddresses.mk "0xstrategy" "0xpool"))
    rfl (le_refl 0)

/-- C7: for a network id absent from the address table, each of the three
listener helpers fails with the missing-property lookup error while resolving
the contract address, before any listener is added or removed (the error
result carries no effects), and the error propagates to the caller
unhandled. -/
theorem lookup_error_propagates (addresses : ℤ → Option NetworkAddresses)
    (networkID : ℤ) (secondsLeft : ℚ) (h : addresses networkID = none) :
    listenAndHandleRNGCompleteEvent addresses networkID =
      Except.error (JsError.lookupUndefined networkID) ∧
    listenAndHandleDepositEvent addresses networkID =
      Except.error (JsError.lookupUndefined networkID) ∧
    listenAndHandleRNGStartEvent addresses networkID secondsLeft =
      Except.error (JsError.lookupUndefined networkID) := by
  refine ⟨?_, ?_, ?_⟩
  · rw [listenAndHandleRNGCompleteEvent, h]
  · rw [listenAndHandleDepositEvent, h]
  · rw [listenAndHandleRNGStartEvent, h]

/-- Witness for C7 on the empty table. -/
theorem lookup_error_propagates_witness :
    listenAndHandleRNGCompleteEvent (fun _ => none) 1 =
      Except.error (JsError.lookupUndefined 1) ∧
    listenAndHandleDepositEvent (fun _ => none) 1 =
      Except.error (JsError.lookupUndefined 1) ∧
    listenAndHandleRNGStartEvent (fun _ => none) 1 0 =
      Except.error (JsError.lookupUndefined 1) :=
  lookup_error_propagates (fun _ => none) 1 0 rfl

/-- C10: in the handler installed by the three listener helpers, the
self-deregistering remove call strictly precedes the callback invocation
(whether or not the callback throws the first two trace entries are the remove
for the handler's own pair followed by the callback invocation), and when the
callback throws, the trace ends there: the 15-second page reload is never
scheduled. -/
theorem handler_remove_precedes_callback (topic addr : String)
    (callbackThrows : Bool) :
    (handlerFunc topic addr callbackThrows).take 2 =
      [HandlerEffect.removeListener topic addr,
       HandlerEffect.invokeCallback] ∧
    handlerFunc topic addr true =
      [HandlerEffect.removeListener topic addr,
       HandlerEffect.invokeCallback] := by
  constructor
  · cases callbackThrows <;> rfl
  · rfl
